import Mathlib

/-!
Verification of the gh_summary_bot contribution-analysis core.

This file gives a shallow embedding, in Lean 4, of the data model and
algorithms of the gh_summary_bot repository (GitHub contribution analyzer):
rate-limit handling and header extraction (`github_source.py`,
`gh_gql_client.py`), the cursor-paginated pull-request line calculation
(`GitHubContributionSource._calculate_lines_from_prs`), the progressive
snapshot assembly (`ProgressiveGitHubSource.contributions`), the
per-repository commit walk (`GitHubContributionSource._fetch_repo_commits`,
`GitHubContributionSource.commits`), the all-time SQL aggregation
(`PostgreSQLReportStorage.aggregated`), and the bot-level year validation
(`GitHubBotCommands.analyze_command`).

Network transports are modelled by passing the successive raw responses of
the GraphQL endpoint explicitly as lists: element `k` of such a list is the
response to the `k`-th request the code issues.  A raised exception is
modelled as an `Except.error` response; a response list may be longer than
what the code consumes (pagination stops at `hasNextPage = false`).
Timestamps are epoch seconds (`Nat`); ISO-8601 date strings are modelled by
their parsed `Date` value, since the code only branches on the parsed
calendar fields.
-/

namespace GhSummaryBot

/-- Calendar date as parsed by `datetime.fromisoformat` from the ISO-8601
strings in the GraphQL payloads.  The line-calculation code only inspects
`.year`, but month and day are kept for concrete test data fidelity. -/
structure Date where
  year : Int
  month : Nat
  day : Nat
deriving Repr, DecidableEq

/-- Mirror of the Python exception classes that the two GraphQL clients can
raise: `GitHubAPIError` (`github_source.py`) / `GitHubGraphQLError`
(`gh_gql_client.py`) are a single exception class each, carrying only a
message string; `RuntimeError` is raised when the session is missing.  The
two modules' classes have the same shape, so one inductive serves both. -/
inductive GHError where
  | runtimeError (msg : String)
  | apiError (msg : String)
deriving Repr, DecidableEq

/-- Name of the Python exception class of an error value: this is what
`except SomeClass:` can discriminate on. -/
def GHError.className : GHError → String
  | .runtimeError _ => "RuntimeError"
  | .apiError _ => "GitHubAPIError"

/-- Message text carried by an error value. -/
def GHError.message : GHError → String
  | .runtimeError m => m
  | .apiError m => m

/-- Mirror of `RateLimit` (github_source.py, lines 25-39): quota snapshot
parsed from response headers.  `reset_at` is epoch seconds. -/
structure RateLimit where
  limit : Nat
  remaining : Nat
  reset_at : Nat
  used : Nat
  node_count : Nat
deriving Repr, DecidableEq

/-- Mirror of `RateLimit.seconds_until_reset`: `max(0, reset_at - now)`;
truncated `Nat` subtraction is exactly that clamp. -/
def RateLimit.seconds_until_reset (rl : RateLimit) (now : Nat) : Nat :=
  rl.reset_at - now

/-- Mirror of `RateLimit.needs_wait(threshold)` (github_source.py, lines
37-39): true exactly when `remaining < threshold`. -/
def RateLimit.needs_wait (rl : RateLimit) (threshold : Nat) : Bool :=
  rl.remaining < threshold

/-- The Python default of the `threshold` parameter of `needs_wait`, and the
default of `RequestConfig.min_remaining_threshold`. -/
def defaultMinRemainingThreshold : Nat := 100

/-- Mirror of `RequestConfig` (github_source.py, lines 42-48); only the
rate-limit related fields are relevant to the claims. -/
structure RequestConfig where
  min_remaining_threshold : Nat
  safety_buffer : Nat
deriving Repr, DecidableEq

/-- The defaults `min_remaining_threshold = 100`, `safety_buffer = 10`. -/
def defaultRequestConfig : RequestConfig :=
  { min_remaining_threshold := defaultMinRemainingThreshold, safety_buffer := 10 }

/-- Response headers, modelled as an association list from header name to the
already-parsed integer value.  `dict.get(key, 0)` followed by `int(...)`
becomes a lookup with default 0 (the `ValueError` branch for a non-numeric
header value is not modelled; both clients catch it). -/
def headerGetD (headers : List (String × Nat)) (key : String) : Nat :=
  (headers.lookup key).getD 0

/-- Mirror of `GraphQLClient._extract_rate_limit` (github_source.py, lines
147-167): reads the four quota headers with default 0 and returns `none`
when both `limit` and `remaining` are absent/zero. -/
def extract_rate_limit (headers : List (String × Nat)) : Option RateLimit :=
  let limit := headerGetD headers "x-ratelimit-limit"
  let remaining := headerGetD headers "x-ratelimit-remaining"
  if limit = 0 ∧ remaining = 0 then
    none
  else
    some
      { limit := limit
        remaining := remaining
        reset_at := headerGetD headers "x-ratelimit-reset"
        used := headerGetD headers "x-ratelimit-used"
        node_count := headerGetD headers "x-ratelimit-resource" }

/-- Mirror of the assignment `self._rate_limit = self._extract_rate_limit(...)`
performed on every response in `GraphQLClient.query` (github_source.py, line
106): the stored status is overwritten unconditionally with the extraction
result, whatever the prior status was. -/
def query_update_rate_limit (prior : Option RateLimit)
    (headers : List (String × Nat)) : Option RateLimit :=
  let _ := prior
  extract_rate_limit headers

/-- Mirror of `RateLimitInfo.from_headers` (gh_gql_client.py, lines 25-36):
no absence check at all, every header defaults to 0. -/
def rate_limit_info_from_headers (headers : List (String × Nat)) : RateLimit :=
  { limit := headerGetD headers "x-ratelimit-limit"
    remaining := headerGetD headers "x-ratelimit-remaining"
    reset_at := headerGetD headers "x-ratelimit-reset"
    used := headerGetD headers "x-ratelimit-used"
    node_count := headerGetD headers "x-ratelimit-resource" }

/-- Mirror of `GitHubGraphQLClient._update_rate_limit_info` (gh_gql_client.py,
lines 104-113) on a response whose headers parsed without exception: the
stored info is overwritten with `from_headers(headers)`.  (The `except`
branch, which would keep the prior value, fires only on a parse failure of a
header value, which the pre-parsed header model excludes.) -/
def update_rate_limit_info (prior : Option RateLimit)
    (headers : List (String × Nat)) : Option RateLimit :=
  let _ := prior
  some (rate_limit_info_from_headers headers)

/-- Mirror of `GraphQLClient._check_rate_limit` (github_source.py, lines
130-145): returns the wait duration the client sleeps before the next
request, or `none` when it does not sleep.  A never-set status (`none`)
means no wait at all. -/
def check_rate_limit_wait (rl : Option RateLimit) (cfg : RequestConfig)
    (now : Nat) : Option Nat :=
  match rl with
  | none => none
  | some r =>
    if r.needs_wait cfg.min_remaining_threshold then
      let wait_time := r.seconds_until_reset now + cfg.safety_buffer
      if wait_time > 0 then some wait_time else none
    else none

/-- Shape of the GraphQL response body after JSON decoding, as far as
`GraphQLClient.query` discriminates it: decode failure, a top-level `errors`
array, or a `data` object (abstracted to an opaque payload string). -/
inductive BodyShape where
  | malformed
  | graphqlErrors (msgs : List String)
  | dataObject (payload : String)
deriving Repr, DecidableEq

/-- A raw HTTP response as seen by `GraphQLClient.query`: status code, quota
headers, decoded body shape, and the raw body text used in the generic
`HTTP {status}` error message. -/
structure HttpResponse where
  status : Nat
  headers : List (String × Nat)
  body : BodyShape
  bodyText : String
deriving Repr, DecidableEq

/-- Mirror of the response handling in `GraphQLClient.query` (github_source.py,
lines 108-128) and `GitHubGraphQLClient._make_request` (gh_gql_client.py,
lines 137-163): status 401 and 403 each raise the module's single API error
class with a fixed message, other `>= 400` statuses raise it with the status
and body text, then JSON decoding and the top-level `errors` array are
checked, and finally the `data` object is returned.  Exactly one request is
made per call; there is no retry loop in either client. -/
def handle_response (r : HttpResponse) : Except GHError String :=
  if r.status = 401 then
    .error (.apiError "Authentication failed. Check your token.")
  else if r.status = 403 then
    .error (.apiError "Forbidden. You may have exceeded rate limits.")
  else if r.status ≥ 400 then
    .error (.apiError ("HTTP " ++ toString r.status ++ ": " ++ r.bodyText))
  else
    match r.body with
    | .malformed => .error (.apiError "Failed to parse JSON response")
    | .graphqlErrors msgs =>
        .error (.apiError ("GraphQL errors: " ++ String.intercalate "; " msgs))
    | .dataObject payload => .ok payload

/-- One pull-request node of the paginated `pullRequests` query
(github_source.py, lines 288-298): parsed creation date, optional merge
date (`mergedAt` may be null), and the two numeric fields, each of which may
be null in the payload. -/
structure PRNode where
  createdAt : Date
  mergedAt : Option Date
  additions : Option Nat
  deletions : Option Nat
deriving Repr, DecidableEq

/-- Mirror of the GraphQL `pageInfo` object. -/
structure PageInfo where
  hasNextPage : Bool
  endCursor : Option String
deriving Repr, DecidableEq

/-- One page of the paginated pull-request query. -/
structure PRPage where
  nodes : List PRNode
  pageInfo : PageInfo
deriving Repr, DecidableEq

/-- Mirror of the local `LineStats` dataclass of github_source.py (lines
16-22): lines added/deleted plus the count of matching PRs.  (Unlike the
`LineStats` in models.py, this one carries no calculation-method tag.) -/
structure LineStats where
  lines_added : Nat
  lines_deleted : Nat
  pr_count : Nat
deriving Repr, DecidableEq

/-- Mirror of the year filter in `_calculate_lines_from_prs` (github_source.py,
lines 323-337): a PR is retained when its creation year is the target year,
or it has a merge date whose year is the target year. -/
def prInYear (year : Int) (pr : PRNode) : Bool :=
  pr.createdAt.year == year ||
    match pr.mergedAt with
    | some m => m.year == year
    | none => false

/-- Accumulation over the retained PRs of one page (github_source.py, lines
340-343): `total_added += additions or 0`, `total_deleted += deletions or 0`,
`pr_count += 1`.  The accumulator is `(total_added, total_deleted, pr_count)`. -/
def prPageStep (year : Int) (acc : Nat × Nat × Nat) (page : PRPage) :
    Nat × Nat × Nat :=
  (page.nodes.filter (prInYear year)).foldl
    (fun t pr => (t.1 + pr.additions.getD 0, t.2.1 + pr.deletions.getD 0, t.2.2 + 1))
    acc

/-- The `while True` pagination loop of `_calculate_lines_from_prs`
(github_source.py, lines 309-358), driven by the successive query responses:
an `Except.error` response is the exception caught by the surrounding
`try/except`, which discards all accumulated totals and returns
`LineStats(0, 0)` (with the default `pr_count = 0`); an `ok` page is
filtered and accumulated, then the loop continues exactly when
`hasNextPage` is true.  Exhausting the response list (never reached for the
response sequences the theorems quantify over, which end with a
`hasNextPage = false` page) returns the totals so far. -/
def prQueryLoop (year : Int) (acc : Nat × Nat × Nat) :
    List (Except GHError PRPage) → LineStats
  | [] => ⟨acc.1, acc.2.1, acc.2.2⟩
  | .error _ :: _ => ⟨0, 0, 0⟩
  | .ok page :: rest =>
    let acc' := prPageStep year acc page
    if page.pageInfo.hasNextPage then
      prQueryLoop year acc' rest
    else
      ⟨acc'.1, acc'.2.1, acc'.2.2⟩

/-- Mirror of `GitHubContributionSource._calculate_lines_from_prs`
(github_source.py, lines 270-358): run the pagination loop from zeroed
totals. -/
def calculate_lines_from_prs (year : Int)
    (responses : List (Except GHError PRPage)) : LineStats :=
  prQueryLoop year (0, 0, 0) responses

/-- Mirror of `GitHubContributionSource.calculate_line_stats` (github_source.py,
lines 266-268): it delegates directly to `_calculate_lines_from_prs` — there
is no further strategy selection at this level. -/
def calculate_line_stats (year : Int)
    (responses : List (Except GHError PRPage)) : LineStats :=
  calculate_lines_from_prs year responses

/-- Trace of the pagination loop of `_calculate_lines_from_prs`: the list of
(cursor passed with the request, page received) pairs, in request order.
The cursor starts as `None` (github_source.py, line 307) and after each page
with `hasNextPage` true is overwritten with that page's `endCursor`
(line 347).  The same loop shape drives `pull_requests` (lines 437-455) and
the commit-history walk (lines 504-539). -/
def prPageTrace (cursor : Option String) :
    List PRPage → List (Option String × PRPage)
  | [] => []
  | page :: rest =>
    (cursor, page) ::
      (if page.pageInfo.hasNextPage then
        prPageTrace page.pageInfo.endCursor rest
      else
        [])

/-- Mirror of the `ContributionStats` snapshot as constructed by
github_source.py.  models.py keys the snapshot by a `date_range` whose start
year backs a derived `.year`; github_source.py constructs snapshots
per-year, so the embedding carries the year directly.  The
`lines_calculation_method` field has Python default `""` and is never passed
by any constructor call in github_source.py, so it is always the empty
string there.  `created_at` is an epoch timestamp. -/
structure ContributionStats where
  username : String
  year : Int
  total_commits : Nat
  total_prs : Nat
  total_issues : Nat
  total_discussions : Nat
  total_reviews : Nat
  repositories_contributed : Nat
  languages : List (String × Nat)
  starred_repos : Nat
  followers : Nat
  following : Nat
  public_repos : Nat
  private_contributions : Nat
  lines_added : Nat
  lines_deleted : Nat
  lines_calculation_method : String
  created_at : Nat
deriving Repr, DecidableEq

/-- Mirror of `ProgressiveGitHubSource.contributions` (github_source.py, lines
564-629) after the base snapshot has been fetched: the outcome of
`calculate_line_stats` (or an exception escaping the `try` block) determines
the line fields of a freshly constructed snapshot.  Every other field is
copied from the base snapshot; `lines_calculation_method` is not among the
passed fields in either branch, so it takes its default `""`.  No commit
query of any kind is issued on this path. -/
def progressive_contributions (base : ContributionStats)
    (line_calc : Except GHError LineStats) : ContributionStats :=
  match line_calc with
  | .ok ls =>
      { username := base.username
        year := base.year
        total_commits := base.total_commits
        total_prs := base.total_prs
        total_issues := base.total_issues
        total_discussions := base.total_discussions
        total_reviews := base.total_reviews
        repositories_contributed := base.repositories_contributed
        languages := base.languages
        starred_repos := base.starred_repos
        followers := base.followers
        following := base.following
        public_repos := base.public_repos
        private_contributions := base.private_contributions
        lines_added := ls.lines_added
        lines_deleted := ls.lines_deleted
        lines_calculation_method := ""
        created_at := base.created_at }
  | .error _ =>
      { username := base.username
        year := base.year
        total_commits := base.total_commits
        total_prs := base.total_prs
        total_issues := base.total_issues
        total_discussions := base.total_discussions
        total_reviews := base.total_reviews
        repositories_contributed := base.repositories_contributed
        languages := base.languages
        starred_repos := base.starred_repos
        followers := base.followers
        following := base.following
        public_repos := base.public_repos
        private_contributions := base.private_contributions
        lines_added := 0
        lines_deleted := 0
        lines_calculation_method := ""
        created_at := base.created_at }

/-- The full line-stat path of `ProgressiveGitHubSource.contributions` for a
given base snapshot and the PR-query responses: `calculate_line_stats` is
total (its internal `try/except` maps every failure to zeroed stats), so the
`Except.ok` branch of the wrapper is always taken.  The definition consumes
only pull-request responses: the path issues no commit-history query. -/
def progressive_source_contributions (base : ContributionStats) (year : Int)
    (pr_responses : List (Except GHError PRPage)) : ContributionStats :=
  progressive_contributions base (.ok (calculate_line_stats year pr_responses))

/-- One commit node of the paginated `history` query (github_source.py, lines
482-492): numeric fields may be null, and `author.user` may be null, in
which case the login is taken as `""` (line 531-533). -/
structure CommitNode where
  oid : String
  committedDate : String
  additions : Option Nat
  deletions : Option Nat
  authorLogin : Option String
deriving Repr, DecidableEq

/-- Mirror of the `Commit` dataclass (models.py, lines 156-162). -/
structure Commit where
  oid : String
  committed_date : String
  additions : Nat
  deletions : Nat
  author_login : String
deriving Repr, DecidableEq

/-- Conversion of a raw commit node into a `Commit` object (github_source.py,
lines 524-535): `additions or 0`, `deletions or 0`, and `""` for a missing
author login. -/
def commitOfNode (n : CommitNode) : Commit :=
  { oid := n.oid
    committed_date := n.committedDate
    additions := n.additions.getD 0
    deletions := n.deletions.getD 0
    author_login := n.authorLogin.getD "" }

/-- One page of a repository's commit history.  The whole page is `none` when
`data["repository"]` or `data["repository"]["object"]` is null (missing
repository / empty default branch), which makes the loop break
(github_source.py, lines 517-518). -/
structure CommitHistPage where
  nodes : List CommitNode
  pageInfo : PageInfo
deriving Repr, DecidableEq

/-- The pagination loop of `GitHubContributionSource._fetch_repo_commits`
(github_source.py, lines 463-544), driven by the successive responses of the
history query for one repository.  An `Except.error` response is the
exception caught by the surrounding `try/except`, which logs a warning and
returns the commits collected so far — the repository's failure is swallowed
(the same skip-and-continue structure appears in
`GitHubAnalyzer._fetch_repo_commits_for_year`, github_analyzer.py, lines
93-174).  A `none` payload breaks out of the loop. -/
def fetchRepoLoop (acc : List Commit) :
    List (Except GHError (Option CommitHistPage)) → List Commit
  | [] => acc
  | .error _ :: _ => acc
  | .ok none :: _ => acc
  | .ok (some page) :: rest =>
    let acc' := acc ++ page.nodes.map commitOfNode
    if page.pageInfo.hasNextPage then
      fetchRepoLoop acc' rest
    else
      acc'

/-- Mirror of `_fetch_repo_commits` for one repository: run the loop from an
empty collection. -/
def fetch_repo_commits
    (responses : List (Except GHError (Option CommitHistPage))) : List Commit :=
  fetchRepoLoop [] responses

/-- Mirror of the per-repository iteration of
`GitHubContributionSource.commits` (github_source.py, lines 396-406): for
each contributed repository in order, fetch its commits and extend the
overall list.  Each inner element of `repos` is that repository's response
sequence. -/
def commits_run
    (repos : List (List (Except GHError (Option CommitHistPage)))) :
    List Commit :=
  repos.foldl (fun all r => all ++ fetch_repo_commits r) []

/-- Mirror of the commit-based line summation in
`GitHubAnalyzer.get_user_contributions` (github_analyzer.py, lines 348-352):
`lines_added += commit additions`, `lines_deleted += commit deletions` over
all collected commits (the null guard is already materialised into the
`Commit` values). -/
def lines_from_commits (cs : List Commit) : Nat × Nat :=
  cs.foldl (fun t c => (t.1 + c.additions, t.2 + c.deletions)) (0, 0)

/-- One stored row of the `contribution_reports` table, as read back by
`PostgreSQLReportStorage` (storage.py): one user-year snapshot.
`languages` is the JSONB histogram as an association list with unique keys;
`created_at` is an epoch timestamp. -/
structure Report where
  username : String
  year : Int
  total_commits : Nat
  total_prs : Nat
  total_issues : Nat
  total_discussions : Nat
  total_reviews : Nat
  repositories_contributed : Nat
  languages : List (String × Nat)
  starred_repos : Nat
  followers : Nat
  following : Nat
  public_repos : Nat
  private_contributions : Nat
  lines_added : Nat
  lines_deleted : Nat
  created_at : Nat
deriving Repr, DecidableEq

/-- Mirror of the `AllTimeStats` value constructed by
`PostgreSQLReportStorage.aggregated` (storage.py, lines 164-184), with
exactly the fields that constructor passes.  (models.py additionally
declares a `lines_calculation_methods` field that `aggregated` never
passes; it is omitted here.) -/
structure AllTimeStats where
  username : String
  total_years : Nat
  total_commits : Nat
  total_prs : Nat
  total_issues : Nat
  total_discussions : Nat
  total_reviews : Nat
  private_contributions : Nat
  lines_added : Nat
  lines_deleted : Nat
  first_year : Int
  last_year : Int
  last_updated : Nat
  repositories_contributed : Nat
  starred_repos : Nat
  followers : Nat
  following : Nat
  public_repos : Nat
  languages : List (String × Nat)
deriving Repr, DecidableEq

/-- Row-accumulator of the cumulative SQL aggregate of
`PostgreSQLReportStorage.aggregated` (storage.py, lines 98-116): `COUNT(*)`,
the eight `SUM(...)` columns, `MIN(year)`, `MAX(year)`, `MAX(created_at)`,
grouped by username. -/
structure CumAcc where
  username : String
  total_years : Nat
  total_commits : Nat
  total_prs : Nat
  total_issues : Nat
  total_discussions : Nat
  total_reviews : Nat
  private_contributions : Nat
  lines_added : Nat
  lines_deleted : Nat
  first_year : Int
  last_year : Int
  last_updated : Nat
deriving Repr, DecidableEq

/-- Aggregate accumulator seeded from the first row of the group. -/
def cumInit (r : Report) : CumAcc :=
  { username := r.username
    total_years := 1
    total_commits := r.total_commits
    total_prs := r.total_prs
    total_issues := r.total_issues
    total_discussions := r.total_discussions
    total_reviews := r.total_reviews
    private_contributions := r.private_contributions
    lines_added := r.lines_added
    lines_deleted := r.lines_deleted
    first_year := r.year
    last_year := r.year
    last_updated := r.created_at }

/-- One row folded into the cumulative aggregate: count, sums, running
minimum and maxima, exactly the SQL aggregate functions of the
`cumulative_query`. -/
def cumStep (acc : CumAcc) (r : Report) : CumAcc :=
  { username := acc.username
    total_years := acc.total_years + 1
    total_commits := acc.total_commits + r.total_commits
    total_prs := acc.total_prs + r.total_prs
    total_issues := acc.total_issues + r.total_issues
    total_discussions := acc.total_discussions + r.total_discussions
    total_reviews := acc.total_reviews + r.total_reviews
    private_contributions := acc.private_contributions + r.private_contributions
    lines_added := acc.lines_added + r.lines_added
    lines_deleted := acc.lines_deleted + r.lines_deleted
    first_year := min acc.first_year r.year
    last_year := max acc.last_year r.year
    last_updated := max acc.last_updated r.created_at }

/-- The `cumulative_query` of `aggregated` over the user's rows: `GROUP BY
username` over an empty row set yields no result row (`fetchone` returns
nothing and `aggregated` returns `None`). -/
def cumulative_stats : List Report → Option CumAcc
  | [] => none
  | r :: rs => some (rs.foldl cumStep (cumInit r))

/-- The `snapshot_query` of `aggregated` (storage.py, lines 119-130):
`ORDER BY year DESC LIMIT 1` selects a row of maximal year (the
`UNIQUE(username, year)` constraint of the schema makes it unique). -/
def latest_snapshot : List Report → Option Report
  | [] => none
  | r :: rs => some (rs.foldl (fun best x => if best.year < x.year then x else best) r)

/-- Lookup with default 0 in a language histogram. -/
def lkpD (l : List (String × Nat)) (k : String) : Nat :=
  (l.lookup k).getD 0

/-- All language keys appearing in any row, first occurrence first. -/
def all_lang_keys (rows : List Report) : List String :=
  (((rows.map Report.languages).flatten).map Prod.fst).dedup

/-- The `lang_query` of `aggregated` (storage.py, lines 147-157):
`jsonb_each_text` explodes every row's histogram and `SUM(...) GROUP BY
lang` totals the counts of identical language keys across all rows. -/
def merge_languages (rows : List Report) : List (String × Nat) :=
  (all_lang_keys rows).map
    (fun k => (k, (rows.map (fun r => lkpD r.languages k)).sum))

/-- Mirror of `PostgreSQLReportStorage.aggregated` (storage.py, lines 95-186):
`None` when the user has no rows, otherwise the `AllTimeStats` built from
the cumulative aggregate, the latest-year snapshot row, and the merged
language histogram.  (The same queries appear verbatim in
`DatabaseManager.get_all_time_stats`, database.py, lines 167-266.) -/
def aggregated (rows : List Report) : Option AllTimeStats :=
  match cumulative_stats rows, latest_snapshot rows with
  | some cum, some snap =>
      some
        { username := cum.username
          total_years := cum.total_years
          total_commits := cum.total_commits
          total_prs := cum.total_prs
          total_issues := cum.total_issues
          total_discussions := cum.total_discussions
          total_reviews := cum.total_reviews
          private_contributions := cum.private_contributions
          lines_added := cum.lines_added
          lines_deleted := cum.lines_deleted
          first_year := cum.first_year
          last_year := cum.last_year
          last_updated := cum.last_updated
          repositories_contributed := snap.repositories_contributed
          starred_repos := snap.starred_repos
          followers := snap.followers
          following := snap.following
          public_repos := snap.public_repos
          languages := merge_languages rows }
  | _, _ => none

/-- Persistent state touched by `GitHubBotCommands.analyze_command`: the
stored reports and the telegram-user associations, kept as journals of the
store operations. -/
structure BotState where
  reports : List ContributionStats
  users : List (Int × Option String)
deriving Repr, DecidableEq

/-- Externally visible actions of one `analyze_command` run, in program
order. -/
inductive BotEffect where
  | fetchContributions (username : String) (year : Int)
  | storeReport (stats : ContributionStats)
  | storeUser (telegramId : Int) (github_username : Option String)
deriving Repr, DecidableEq

/-- The invalid-year reply of `analyze_command` (bot.py, line 74). -/
def invalid_year_message (currentYear : Int) : String :=
  "Invalid year! Please choose between 2008 and " ++ toString currentYear

/-- Mirror of `GitHubBotCommands.analyze_command` (bot.py, lines 68-97): the
year is validated before anything else; on a valid year the GitHub fetch
runs (its outcome passed in as `fetch_result`), and on success the report
and the user association are stored and the rendered report returned, while
a fetch failure is caught and turned into an error reply without storing
anything.  The returned triple is (reply text, state after, effect trace). -/
def analyze_command (username : String) (year : Int) (userId : Int)
    (currentYear : Int) (render : ContributionStats → String)
    (fetch_result : Except GHError ContributionStats) (st : BotState) :
    String × BotState × List BotEffect :=
  if year < 2008 ∨ year > currentYear then
    (invalid_year_message currentYear, st, [])
  else
    match fetch_result with
    | .ok stats =>
        (render stats,
         { reports := st.reports ++ [stats]
           users := st.users ++ [(userId, some username)] },
         [.fetchContributions username year, .storeReport stats,
          .storeUser userId (some username)])
    | .error e =>
        ("❌ Error analyzing " ++ username ++ ": " ++ e.message ++
           "\nMake sure the username is correct and try again.",
         st,
         [.fetchContributions username year])

/-- Declarative description (the spec's wording) of the PRs the primary
strategy retains from a sequence of pages: those created or merged in the
target year, across all pages. -/
def retained_prs (year : Int) (pages : List PRPage) : List PRNode :=
  ((pages.map PRPage.nodes).flatten).filter (prInYear year)

/-- Sum of the additions of a PR list, a missing field counting as zero. -/
def addSum (l : List PRNode) : Nat :=
  (l.map (fun pr => pr.additions.getD 0)).sum

/-- Sum of the deletions of a PR list, a missing field counting as zero. -/
def delSum (l : List PRNode) : Nat :=
  (l.map (fun pr => pr.deletions.getD 0)).sum

/-- The PR used in the claimed C2 example: created 2024-01-10, merged
2024-01-15, additions 75, deletions 15. -/
def c2pr1 : PRNode :=
  { createdAt := ⟨2024, 1, 10⟩, mergedAt := some ⟨2024, 1, 15⟩
    additions := some 75, deletions := some 15 }

/-- The second PR of the C2 example: created 2023-12-20, merged 2024-02-25,
additions 40, deletions 8 — qualifying for 2024 only through its merge date. -/
def c2pr2 : PRNode :=
  { createdAt := ⟨2023, 12, 20⟩, mergedAt := some ⟨2024, 2, 25⟩
    additions := some 40, deletions := some 8 }

/-- The single (final) page holding the two example PRs. -/
def c2page : PRPage := { nodes := [c2pr1, c2pr2], pageInfo := ⟨false, none⟩ }

/-- A 2024-created PR whose `additions` field is null. -/
def c2pr3 : PRNode :=
  { createdAt := ⟨2024, 3, 1⟩, mergedAt := none, additions := none, deletions := some 5 }

/-- A single-page response containing only the null-additions PR. -/
def c2page_null : PRPage := { nodes := [c2pr3], pageInfo := ⟨false, none⟩ }

/-- Base snapshot used in the C1 scenario (fields as fetched by the
contributions query; lines still zero, method tag at its default). -/
def c1base : ContributionStats :=
  { username := "octocat", year := 2024, total_commits := 150, total_prs := 30
    total_issues := 25, total_discussions := 20, total_reviews := 45
    repositories_contributed := 10, languages := [("Python", 100)]
    starred_repos := 250, followers := 50, following := 75, public_repos := 15
    private_contributions := 10, lines_added := 0, lines_deleted := 0
    lines_calculation_method := "", created_at := 1700000000 }

/-- A final PR page with no nodes at all: the primary strategy finds zero
matching items. -/
def c1emptyPage : PRPage := { nodes := [], pageInfo := ⟨false, none⟩ }

/-- Concrete prior quota status used to exhibit the rate-limit frame effect. -/
def c4_prior : RateLimit :=
  { limit := 5000, remaining := 4321, reset_at := 1700000000, used := 679, node_count := 0 }

/-- The conclusion of claim C3, phrased against `aggregated`: all flow
metrics are summed over the snapshots, first/last year are the minimum and
maximum snapshot years, the point-in-time fields come from the snapshot of
maximal year, the language histogram sums counts of identical keys, and
`last_updated` is the maximal creation timestamp. -/
def C3Spec (rows : List Report) : Prop :=
  ∃ a, aggregated rows = some a
    ∧ a.total_years = rows.length
    ∧ a.total_commits = (rows.map Report.total_commits).sum
    ∧ a.total_prs = (rows.map Report.total_prs).sum
    ∧ a.total_issues = (rows.map Report.total_issues).sum
    ∧ a.total_discussions = (rows.map Report.total_discussions).sum
    ∧ a.total_reviews = (rows.map Report.total_reviews).sum
    ∧ a.private_contributions = (rows.map Report.private_contributions).sum
    ∧ a.lines_added = (rows.map Report.lines_added).sum
    ∧ a.lines_deleted = (rows.map Report.lines_deleted).sum
    ∧ a.first_year ∈ rows.map Report.year
    ∧ (∀ r ∈ rows, a.first_year ≤ r.year)
    ∧ a.last_year ∈ rows.map Report.year
    ∧ (∀ r ∈ rows, r.year ≤ a.last_year)
    ∧ a.last_updated ∈ rows.map Report.created_at
    ∧ (∀ r ∈ rows, r.created_at ≤ a.last_updated)
    ∧ (∀ r ∈ rows, (∀ s ∈ rows, s.year ≤ r.year) →
        a.repositories_contributed = r.repositories_contributed
        ∧ a.starred_repos = r.starred_repos
        ∧ a.followers = r.followers
        ∧ a.following = r.following
        ∧ a.public_repos = r.public_repos)
    ∧ (∀ k, lkpD a.languages k = (rows.map (fun r => lkpD r.languages k)).sum)

/-- The 2022 snapshot of the claimed C3 example: 100 commits, 5 repositories
contributed. -/
def c3r2022 : Report :=
  { username := "octocat", year := 2022, total_commits := 100, total_prs := 10
    total_issues := 5, total_discussions := 2, total_reviews := 7
    repositories_contributed := 5, languages := []
    starred_repos := 10, followers := 20, following := 30, public_repos := 8
    private_contributions := 1, lines_added := 1000, lines_deleted := 400
    created_at := 1650000000 }

/-- The 2023 snapshot: 150 commits, 8 repositories, Python 100. -/
def c3r2023 : Report :=
  { username := "octocat", year := 2023, total_commits := 150, total_prs := 12
    total_issues := 6, total_discussions := 3, total_reviews := 9
    repositories_contributed := 8, languages := [("Python", 100)]
    starred_repos := 12, followers := 25, following := 32, public_repos := 9
    private_contributions := 2, lines_added := 1500, lines_deleted := 600
    created_at := 1680000000 }

/-- The 2024 snapshot: 200 commits, 10 repositories, Python 50 and Go 30. -/
def c3r2024 : Report :=
  { username := "octocat", year := 2024, total_commits := 200, total_prs := 15
    total_issues := 7, total_discussions := 4, total_reviews := 11
    repositories_contributed := 10, languages := [("Python", 50), ("Go", 30)]
    starred_repos := 15, followers := 30, following := 35, public_repos := 11
    private_contributions := 3, lines_added := 2000, lines_deleted := 800
    created_at := 1710000000 }

/-- The three-snapshot collection of the C3 example. -/
def c3rows : List Report := [c3r2022, c3r2023, c3r2024]

theorem prNodes_foldl_spec (l : List PRNode) : ∀ (a d c : Nat),
    l.foldl
      (fun t pr => (t.1 + pr.additions.getD 0, t.2.1 + pr.deletions.getD 0, t.2.2 + 1))
      (a, d, c)
      = (a + addSum l, d + delSum l, c + l.length) := by
  induction l with
  | nil => intro a d c; simp [addSum, delSum]
  | cons x xs ih =>
    intro a d c
    simp only [List.foldl_cons, ih, addSum, delSum, List.map_cons, List.sum_cons,
      List.length_cons, Prod.mk.injEq]
    refine ⟨by omega, by omega, by omega⟩

theorem prPageStep_spec (year : Int) (page : PRPage) (a d c : Nat) :
    prPageStep year (a, d, c) page
      = (a + addSum (page.nodes.filter (prInYear year)),
         d + delSum (page.nodes.filter (prInYear year)),
         c + (page.nodes.filter (prInYear year)).length) :=
  prNodes_foldl_spec _ a d c

theorem prQueryLoop_ok_run (year : Int) (last : PRPage)
    (hlast : last.pageInfo.hasNextPage = false) :
    ∀ (front : List PRPage) (a d c : Nat),
      (∀ p ∈ front, p.pageInfo.hasNextPage = true) →
      prQueryLoop year (a, d, c) ((front ++ [last]).map Except.ok)
        = ⟨a + addSum (retained_prs year (front ++ [last])),
           d + delSum (retained_prs year (front ++ [last])),
           c + (retained_prs year (front ++ [last])).length⟩ := by
  intro front
  induction front with
  | nil =>
    intro a d c _
    simp only [List.nil_append, List.map_cons, List.map_nil, prQueryLoop,
      prPageStep_spec, hlast, if_neg (by simp : ¬ (false : Bool) = true)]
    simp [retained_prs]
  | cons p front ih =>
    intro a d c hfront
    have hp : p.pageInfo.hasNextPage = true := hfront p (List.mem_cons_self _ _)
    have hrest : ∀ q ∈ front, q.pageInfo.hasNextPage = true :=
      fun q hq => hfront q (List.mem_cons_of_mem _ hq)
    simp only [List.cons_append, List.map_cons, prQueryLoop, prPageStep_spec, hp,
      if_true, List.append_eq]
    rw [ih _ _ _ hrest]
    simp only [retained_prs, List.map_cons, List.flatten_cons, List.filter_append,
      addSum, delSum, List.map_append, List.sum_append, List.length_append,
      LineStats.mk.injEq]
    refine ⟨by omega, by omega, by omega⟩

/-- C2: over any fully-successful paged response sequence, the primary
strategy retains exactly the PRs created or merged in the target year,
returns the sums of their additions/deletions with missing fields counting
zero, and counts the retained PRs. -/
theorem c2_primary_strategy_sums (year : Int) (front : List PRPage)
    (last : PRPage) (hfront : ∀ p ∈ front, p.pageInfo.hasNextPage = true)
    (hlast : last.pageInfo.hasNextPage = false) :
    calculate_lines_from_prs year ((front ++ [last]).map Except.ok)
      = ⟨addSum (retained_prs year (front ++ [last])),
         delSum (retained_prs year (front ++ [last])),
         (retained_prs year (front ++ [last])).length⟩ := by
  have h := prQueryLoop_ok_run year last hlast front 0 0 0 hfront
  simpa [calculate_lines_from_prs] using h

/-- Witness for C2: the claimed example returns 115/23/2, and a PR with a
null `additions` field contributes zero. -/
theorem c2_primary_strategy_sums_witness :
    (∀ p ∈ ([] : List PRPage), p.pageInfo.hasNextPage = true)
    ∧ c2page.pageInfo.hasNextPage = false
    ∧ calculate_lines_from_prs 2024 (([] ++ [c2page]).map Except.ok) = ⟨115, 23, 2⟩
    ∧ calculate_lines_from_prs 2024 (([] ++ [c2page_null]).map Except.ok) = ⟨0, 5, 1⟩ :=
  ⟨by simp, rfl,
    (c2_primary_strategy_sums 2024 [] c2page (by simp) rfl).trans (by decide),
    (c2_primary_strategy_sums 2024 [] c2page_null (by simp) rfl).trans (by decide)⟩

theorem prQueryLoop_error_run (year : Int) (e : GHError)
    (rest : List (Except GHError PRPage)) :
    ∀ (good : List PRPage) (a d c : Nat),
      (∀ p ∈ good, p.pageInfo.hasNextPage = true) →
      prQueryLoop year (a, d, c) ((good.map Except.ok) ++ Except.error e :: rest)
        = ⟨0, 0, 0⟩ := by
  intro good
  induction good with
  | nil => intro a d c _; rfl
  | cons p good ih =>
    intro a d c hgood
    have hp : p.pageInfo.hasNextPage = true := hgood p (List.mem_cons_self _ _)
    have hrest : ∀ q ∈ good, q.pageInfo.hasNextPage = true :=
      fun q hq => hgood q (List.mem_cons_of_mem _ hq)
    simp only [List.map_cons, List.cons_append, prQueryLoop, hp, if_true]
    exact ih _ _ _ hrest

/-- C9: `calculate_line_stats` is total with respect to query failures — if
an exception is raised at any point of the paging (after any number of
successfully processed pages), the whole computation returns
`LineStats(0, 0, 0)` instead of propagating the error, discarding any
partial totals. -/
theorem c9_error_yields_zero_stats (year : Int) (good : List PRPage)
    (e : GHError) (rest : List (Except GHError PRPage))
    (hgood : ∀ p ∈ good, p.pageInfo.hasNextPage = true) :
    calculate_line_stats year ((good.map Except.ok) ++ Except.error e :: rest)
      = ⟨0, 0, 0⟩ :=
  prQueryLoop_error_run year e rest good 0 0 0 hgood

/-- Witness for C9: a failure on the second page, after a first page holding
a matching PR, still yields the zeroed stats. -/
theorem c9_error_yields_zero_stats_witness :
    (∀ p ∈ [PRPage.mk [c2pr1] ⟨true, some "CUR1"⟩], p.pageInfo.hasNextPage = true)
    ∧ calculate_line_stats 2024
        (([PRPage.mk [c2pr1] ⟨true, some "CUR1"⟩].map Except.ok) ++
          Except.error (.apiError "GraphQL errors: something went wrong") :: [])
      = ⟨0, 0, 0⟩ :=
  ⟨by simp, c9_error_yields_zero_stats 2024 [PRPage.mk [c2pr1] ⟨true, some "CUR1"⟩]
    (.apiError "GraphQL errors: something went wrong") [] (by simp)⟩

theorem prPageTrace_run (last : PRPage)
    (hlast : last.pageInfo.hasNextPage = false) :
    ∀ (front : List PRPage) (cursor : Option String),
      (∀ p ∈ front, p.pageInfo.hasNextPage = true) →
      (prPageTrace cursor (front ++ [last])).map Prod.snd = front ++ [last]
      ∧ (prPageTrace cursor (front ++ [last])).map Prod.fst
          = cursor :: front.map (fun p => p.pageInfo.endCursor) := by
  intro front
  induction front with
  | nil =>
    intro cursor _
    simp [prPageTrace, hlast]
  | cons p front ih =>
    intro cursor hfront
    have hp : p.pageInfo.hasNextPage = true := hfront p (List.mem_cons_self _ _)
    have hrest : ∀ q ∈ front, q.pageInfo.hasNextPage = true :=
      fun q hq => hfront q (List.mem_cons_of_mem _ hq)
    have hih := ih p.pageInfo.endCursor hrest
    simp only [List.cons_append, prPageTrace, hp, if_true, List.map_cons,
      List.append_eq]
    exact ⟨by rw [hih.1], by rw [hih.2]⟩

/-- C5: for a response sequence whose first N-1 pages have `hasNextPage` true
and whose Nth page has it false, the pagination loop performs exactly N
requests yielding the N pages in order, passes a null cursor on the first
request, and passes page k's `endCursor` as the cursor of request k+1. -/
theorem c5_cursor_pagination (front : List PRPage) (last : PRPage)
    (hfront : ∀ p ∈ front, p.pageInfo.hasNextPage = true)
    (hlast : last.pageInfo.hasNextPage = false) :
    (prPageTrace none (front ++ [last])).length = (front ++ [last]).length
    ∧ (prPageTrace none (front ++ [last])).map Prod.snd = front ++ [last]
    ∧ (prPageTrace none (front ++ [last])).map Prod.fst
        = none :: front.map (fun p => p.pageInfo.endCursor) := by
  have h := prPageTrace_run last hlast front none hfront
  refine ⟨?_, h.1, h.2⟩
  calc (prPageTrace none (front ++ [last])).length
      = ((prPageTrace none (front ++ [last])).map Prod.snd).length :=
        (List.length_map _ _).symm
    _ = (front ++ [last]).length := by rw [h.1]

/-- Witness for C5 on a concrete 3-page sequence with cursors CUR1, CUR2:
three batches, null first cursor, then CUR1 and CUR2. -/
theorem c5_cursor_pagination_witness :
    (∀ p ∈ [PRPage.mk [] ⟨true, some "CUR1"⟩, PRPage.mk [c2pr1] ⟨true, some "CUR2"⟩],
        p.pageInfo.hasNextPage = true)
    ∧ (prPageTrace none
        ([PRPage.mk [] ⟨true, some "CUR1"⟩, PRPage.mk [c2pr1] ⟨true, some "CUR2"⟩] ++
          [PRPage.mk [c2pr2] ⟨false, none⟩])).length = 3
    ∧ (prPageTrace none
        ([PRPage.mk [] ⟨true, some "CUR1"⟩, PRPage.mk [c2pr1] ⟨true, some "CUR2"⟩] ++
          [PRPage.mk [c2pr2] ⟨false, none⟩])).map Prod.fst
      = [none, some "CUR1", some "CUR2"] := by
  have h := c5_cursor_pagination
    [PRPage.mk [] ⟨true, some "CUR1"⟩, PRPage.mk [c2pr1] ⟨true, some "CUR2"⟩]
    (PRPage.mk [c2pr2] ⟨false, none⟩) (by simp) rfl
  exact ⟨by simp, h.1.trans (by decide), h.2.2.trans (by decide)⟩

theorem prQueryLoop_cases (year : Int) :
    ∀ (rs : List (Except GHError PRPage)) (a d c : Nat),
      prQueryLoop year (a, d, c) rs = ⟨0, 0, 0⟩ ∨
      ∃ nodes : List PRNode,
        prQueryLoop year (a, d, c) rs
          = ⟨a + addSum nodes, d + delSum nodes, c + nodes.length⟩ := by
  intro rs
  induction rs with
  | nil =>
    intro a d c
    exact Or.inr ⟨[], by simp [prQueryLoop, addSum, delSum]⟩
  | cons x rest ih =>
    intro a d c
    match x with
    | .error e => exact Or.inl rfl
    | .ok page =>
      by_cases hnext : page.pageInfo.hasNextPage = true
      · have hstep :
            prQueryLoop year (a, d, c) (Except.ok page :: rest)
              = prQueryLoop year
                  (a + addSum (page.nodes.filter (prInYear year)),
                   d + delSum (page.nodes.filter (prInYear year)),
                   c + (page.nodes.filter (prInYear year)).length)
                  rest := by
          simp only [prQueryLoop, prPageStep_spec, hnext, if_true]
        rcases ih (a + addSum (page.nodes.filter (prInYear year)))
          (d + delSum (page.nodes.filter (prInYear year)))
          (c + (page.nodes.filter (prInYear year)).length) with h0 | ⟨ns, hns⟩
        · exact Or.inl (hstep.trans h0)
        · refine Or.inr ⟨page.nodes.filter (prInYear year) ++ ns, ?_⟩
          rw [hstep, hns]
          simp only [addSum, delSum, List.map_append, List.sum_append,
            List.length_append, LineStats.mk.injEq]
          refine ⟨by omega, by omega, by omega⟩
      · refine Or.inr ⟨page.nodes.filter (prInYear year), ?_⟩
        simp only [prQueryLoop, prPageStep_spec, hnext, if_false,
          Bool.not_eq_true] at *
        simp [prQueryLoop, prPageStep_spec, hnext]

/-- C1 amended: on the line-delta path of `ProgressiveGitHubSource`, the
snapshot's method tag is always the empty string (never "commits"); when the
primary pull-request strategy yields zero matching items, the snapshot's
line counts are zero — the zero result is used as-is; and when an exception
escapes to the wrapper, the snapshot's line counts are likewise zeroed.  No
commit-walk fallback exists on this path: the computation consumes only
pull-request responses. -/
theorem c1_no_commit_fallback (base : ContributionStats) (year : Int)
    (rs : List (Except GHError PRPage)) :
    (progressive_source_contributions base year rs).lines_calculation_method = ""
    ∧ ((calculate_line_stats year rs).pr_count = 0 →
        (progressive_source_contributions base year rs).lines_added = 0
        ∧ (progressive_source_contributions base year rs).lines_deleted = 0)
    ∧ (∀ e : GHError,
        (progressive_contributions base (.error e)).lines_added = 0
        ∧ (progressive_contributions base (.error e)).lines_deleted = 0
        ∧ (progressive_contributions base (.error e)).lines_calculation_method = "") := by
  refine ⟨rfl, fun hzero => ?_, fun e => ⟨rfl, rfl, rfl⟩⟩
  have hls :
      (progressive_source_contributions base year rs).lines_added
          = (calculate_line_stats year rs).lines_added
      ∧ (progressive_source_contributions base year rs).lines_deleted
          = (calculate_line_stats year rs).lines_deleted := ⟨rfl, rfl⟩
  rcases prQueryLoop_cases year rs 0 0 0 with h0 | ⟨ns, hns⟩
  · have : calculate_line_stats year rs = ⟨0, 0, 0⟩ := h0
    rw [hls.1, hls.2, this]
    exact ⟨rfl, rfl⟩
  · have hcalc : calculate_line_stats year rs
        = ⟨0 + addSum ns, 0 + delSum ns, 0 + ns.length⟩ := hns
    have hlen : ns.length = 0 := by
      have := congrArg LineStats.pr_count hcalc
      simp only [this] at hzero
      omega
    have hns_nil : ns = [] := List.length_eq_zero.mp hlen
    subst hns_nil
    rw [hls.1, hls.2, hcalc]
    simp [addSum, delSum]

/-- C1 fails on the code: with a primary strategy yielding zero matching
items, the resulting snapshot's line-calculation method tag is the empty
string, not "commits" — no commit-walk fallback is invoked by
`calculate_line_stats` or `ProgressiveGitHubSource.contributions`. -/
theorem c1_method_tag_counterexample :
    (calculate_line_stats 2024 [Except.ok c1emptyPage]).pr_count = 0
    ∧ (progressive_source_contributions c1base 2024
        [Except.ok c1emptyPage]).lines_calculation_method = ""
    ∧ (progressive_source_contributions c1base 2024
        [Except.ok c1emptyPage]).lines_calculation_method ≠ "commits" :=
  ⟨rfl, rfl, by decide⟩

/-- Witness for the amended C1 at the concrete zero-match scenario. -/
theorem c1_no_commit_fallback_witness :
    (calculate_line_stats 2024 [Except.ok c1emptyPage]).pr_count = 0
    ∧ (progressive_source_contributions c1base 2024
          [Except.ok c1emptyPage]).lines_added = 0
    ∧ (progressive_source_contributions c1base 2024
          [Except.ok c1emptyPage]).lines_deleted = 0 := by
  have h := (c1_no_commit_fallback c1base 2024 [Except.ok c1emptyPage]).2.1 (by decide)
  exact ⟨by decide, h.1, h.2⟩

theorem commits_run_foldl (xs : List (List (Except GHError (Option CommitHistPage)))) :
    ∀ (init : List Commit),
      xs.foldl (fun all r => all ++ fetch_repo_commits r) init
        = init ++ commits_run xs := by
  induction xs with
  | nil => intro init; simp [commits_run]
  | cons x xs ih =>
    intro init
    rw [List.foldl_cons, ih (init ++ fetch_repo_commits x)]
    have hx : commits_run (x :: xs) = fetch_repo_commits x ++ commits_run xs := by
      simp only [commits_run, List.foldl_cons, List.nil_append]
      exact ih (fetch_repo_commits x)
    rw [hx, List.append_assoc]

theorem commits_run_append (xs ys : List (List (Except GHError (Option CommitHistPage)))) :
    commits_run (xs ++ ys) = commits_run xs ++ commits_run ys := by
  simp only [commits_run, List.foldl_append]
  rw [commits_run_foldl ys (List.foldl (fun all r => all ++ fetch_repo_commits r) [] xs)]
  rfl

theorem lines_from_commits_foldl (cs : List Commit) : ∀ (a d : Nat),
    cs.foldl (fun t c => (t.1 + c.additions, t.2 + c.deletions)) (a, d)
      = (a + (cs.map Commit.additions).sum, d + (cs.map Commit.deletions).sum) := by
  induction cs with
  | nil => intro a d; simp
  | cons c cs ih =>
    intro a d
    simp only [List.foldl_cons, ih, List.map_cons, List.sum_cons, Prod.mk.injEq]
    refine ⟨by omega, by omega⟩

/-- C7: a repository whose commit-history fetch throws on its first request
contributes nothing, while the walk over all other repositories (before and
after it) proceeds unaffected; the overall result is the well-formed
commit list of the remaining repositories, and the line count computed from
it is the plain sum of those commits' additions and deletions. -/
theorem c7_failed_repo_skipped
    (pre post : List (List (Except GHError (Option CommitHistPage))))
    (e : GHError) (bTail : List (Except GHError (Option CommitHistPage))) :
    commits_run (pre ++ (Except.error e :: bTail) :: post)
      = commits_run pre ++ commits_run post
    ∧ lines_from_commits (commits_run (pre ++ (Except.error e :: bTail) :: post))
      = (((commits_run pre ++ commits_run post).map Commit.additions).sum,
         ((commits_run pre ++ commits_run post).map Commit.deletions).sum) := by
  have hskip : commits_run (pre ++ (Except.error e :: bTail) :: post)
      = commits_run pre ++ commits_run post := by
    rw [commits_run_append]
    have : commits_run ((Except.error e :: bTail) :: post)
        = fetch_repo_commits (Except.error e :: bTail) ++ commits_run post := by
      simp only [commits_run, List.foldl_cons, List.nil_append]
      exact commits_run_foldl post (fetch_repo_commits (Except.error e :: bTail))
    rw [this]
    have hfail : fetch_repo_commits (Except.error e :: bTail) = [] := rfl
    rw [hfail, List.nil_append]
  refine ⟨hskip, ?_⟩
  rw [hskip]
  have := lines_from_commits_foldl (commits_run pre ++ commits_run post) 0 0
  simpa [lines_from_commits] using this

/-- C6: `RateLimiter.shouldWait(status, threshold)` is true iff
`status.remaining < threshold` (default threshold 100), independent of the
`limit` and `used` fields, and a never-set status means no wait at all. -/
theorem c6_should_wait_iff :
    (∀ (rl : RateLimit) (threshold : Nat),
        rl.needs_wait threshold = true ↔ rl.remaining < threshold)
    ∧ (∀ (rl rl' : RateLimit) (threshold : Nat),
        rl.remaining = rl'.remaining →
        rl.needs_wait threshold = rl'.needs_wait threshold)
    ∧ defaultMinRemainingThreshold = 100
    ∧ (∀ (cfg : RequestConfig) (now : Nat),
        check_rate_limit_wait none cfg now = none) := by
  refine ⟨fun rl th => ?_, fun rl rl' th h => ?_, rfl, fun cfg now => rfl⟩
  · simp [RateLimit.needs_wait]
  · simp [RateLimit.needs_wait, h]

/-- Witness for C6 at a concrete status: remaining 42 needs a wait under the
default threshold whatever limit/used are, and an absent status never
waits. -/
theorem c6_should_wait_iff_witness :
    ((⟨5000, 42, 0, 13, 0⟩ : RateLimit).needs_wait 100 = true ↔ 42 < 100)
    ∧ (⟨5000, 42, 0, 13, 0⟩ : RateLimit).needs_wait 100
        = (⟨1, 42, 99, 7, 3⟩ : RateLimit).needs_wait 100
    ∧ defaultMinRemainingThreshold = 100
    ∧ check_rate_limit_wait none defaultRequestConfig 0 = none :=
  ⟨c6_should_wait_iff.1 _ 100, c6_should_wait_iff.2.1 _ _ 100 rfl,
    c6_should_wait_iff.2.2.1, c6_should_wait_iff.2.2.2 defaultRequestConfig 0⟩

/-- C4 fails on the code: a response with none of the four rate-limit headers
makes `GraphQLClient.query` overwrite the stored status with the `None` that
`_extract_rate_limit` returns, so a concrete prior status is cleared to an
absent value rather than left unchanged. -/
theorem c4_rate_limit_counterexample :
    query_update_rate_limit (some c4_prior) [] = none
    ∧ (none : Option RateLimit) ≠ some c4_prior :=
  ⟨rfl, by decide⟩

/-- C4 amended: on a response carrying none of the four rate-limit headers,
`GraphQLClient` clears the stored status to `none` (the extraction returns
`None` and is assigned unconditionally), and `GitHubGraphQLClient` replaces
the stored status with an all-zero `RateLimitInfo`; in neither client is the
prior status preserved. -/
theorem c4_absent_headers_amended (prior : Option RateLimit)
    (headers : List (String × Nat))
    (h1 : headers.lookup "x-ratelimit-limit" = none)
    (h2 : headers.lookup "x-ratelimit-remaining" = none)
    (h3 : headers.lookup "x-ratelimit-reset" = none)
    (h4 : headers.lookup "x-ratelimit-used" = none) :
    query_update_rate_limit prior headers = none
    ∧ ∃ r, update_rate_limit_info prior headers = some r
        ∧ r.limit = 0 ∧ r.remaining = 0 ∧ r.reset_at = 0 ∧ r.used = 0 := by
  refine ⟨?_, rate_limit_info_from_headers headers, rfl, ?_, ?_, ?_, ?_⟩ <;>
    simp [query_update_rate_limit, extract_rate_limit,
      rate_limit_info_from_headers, headerGetD, h1, h2, h3, h4]

/-- Witness for the amended C4 at a concrete prior status and a concrete
header set containing none of the four quota headers. -/
theorem c4_absent_headers_amended_witness :
    ([("content-type", 1)] : List (String × Nat)).lookup "x-ratelimit-limit" = none
    ∧ (query_update_rate_limit (some c4_prior) [("content-type", 1)] = none
      ∧ ∃ r, update_rate_limit_info (some c4_prior) [("content-type", 1)] = some r
          ∧ r.limit = 0 ∧ r.remaining = 0 ∧ r.reset_at = 0 ∧ r.used = 0) :=
  ⟨rfl, c4_absent_headers_amended (some c4_prior) [("content-type", 1)]
    rfl rfl rfl rfl⟩

/-- C8 fails on the code: both status 401 and status 403 raise the module's
single `GitHubAPIError` exception class — the two failures are not distinct
typed errors; at the concrete responses below the raised errors share the
exception class and differ only in their message text. -/
theorem c8_error_types_counterexample :
    handle_response ⟨401, [], .dataObject "", ""⟩
      = .error (.apiError "Authentication failed. Check your token.")
    ∧ handle_response ⟨403, [], .dataObject "", ""⟩
      = .error (.apiError "Forbidden. You may have exceeded rate limits.")
    ∧ GHError.className (.apiError "Authentication failed. Check your token.")
      = GHError.className (.apiError "Forbidden. You may have exceeded rate limits.") :=
  ⟨rfl, rfl, rfl⟩

/-- C8 amended: an HTTP 401 response raises `GitHubAPIError` with the fixed
authentication message and an HTTP 403 response raises `GitHubAPIError`
with the fixed forbidden message; the two are the same exception type and
are distinguishable only by message text, which does differ.  (Neither
client has a retry loop: `handle_response` is applied to the single response
of the single request a `query` call makes.) -/
theorem c8_status_mapping_amended (headers : List (String × Nat))
    (body : BodyShape) (bodyText : String) :
    handle_response ⟨401, headers, body, bodyText⟩
      = .error (.apiError "Authentication failed. Check your token.")
    ∧ handle_response ⟨403, headers, body, bodyText⟩
      = .error (.apiError "Forbidden. You may have exceeded rate limits.")
    ∧ (∀ e1 e2 : GHError,
        handle_response ⟨401, headers, body, bodyText⟩ = .error e1 →
        handle_response ⟨403, headers, body, bodyText⟩ = .error e2 →
        e1.className = e2.className ∧ e1.message ≠ e2.message) := by
  refine ⟨rfl, rfl, fun e1 e2 h1 h2 => ?_⟩
  have he1 : e1 = .apiError "Authentication failed. Check your token." := by
    have := h1.symm.trans (rfl :
      handle_response ⟨401, headers, body, bodyText⟩
        = .error (.apiError "Authentication failed. Check your token."))
    exact (Except.error.injEq _ _).mp this
  have he2 : e2 = .apiError "Forbidden. You may have exceeded rate limits." := by
    have := h2.symm.trans (rfl :
      handle_response ⟨403, headers, body, bodyText⟩
        = .error (.apiError "Forbidden. You may have exceeded rate limits."))
    exact (Except.error.injEq _ _).mp this
  subst he1; subst he2
  exact ⟨rfl, by decide⟩

/-- Witness for the amended C8 at a concrete response pair. -/
theorem c8_status_mapping_amended_witness :
    handle_response ⟨401, [], .dataObject "d", "body"⟩
      = .error (.apiError "Authentication failed. Check your token.")
    ∧ handle_response ⟨403, [], .dataObject "d", "body"⟩
      = .error (.apiError "Forbidden. You may have exceeded rate limits.")
    ∧ GHError.className (.apiError "Authentication failed. Check your token.")
        = GHError.className (.apiError "Forbidden. You may have exceeded rate limits.")
    ∧ GHError.message (.apiError "Authentication failed. Check your token.")
        ≠ GHError.message (.apiError "Forbidden. You may have exceeded rate limits.") := by
  have h := c8_status_mapping_amended [] (.dataObject "d") "body"
  have h3 := h.2.2 (.apiError "Authentication failed. Check your token.")
    (.apiError "Forbidden. You may have exceeded rate limits.") h.1 h.2.1
  exact ⟨h.1, h.2.1, h3.1, h3.2⟩

/-- C10: for every year strictly below 2008 or strictly above the current
year, `analyze_command` returns the invalid-year message immediately, with
the stored state unchanged and no fetch or store effect performed. -/
theorem c10_invalid_year_no_effects (username : String) (year : Int)
    (userId : Int) (currentYear : Int) (render : ContributionStats → String)
    (fetch_result : Except GHError ContributionStats) (st : BotState)
    (h : year < 2008 ∨ year > currentYear) :
    analyze_command username year userId currentYear render fetch_result st
      = (invalid_year_message currentYear, st, []) := by
  unfold analyze_command
  rw [if_pos h]

/-- Witness for C10: analyzing year 2007 (below 2008) with current year 2025
yields the invalid-year reply, an unchanged empty state, and no effects. -/
theorem c10_invalid_year_no_effects_witness :
    ((2007 : Int) < 2008 ∨ (2007 : Int) > 2025)
    ∧ analyze_command "torvalds" 2007 1 2025 (fun _ => "")
        (.error (.apiError "unused")) ⟨[], []⟩
      = (invalid_year_message 2025, ⟨[], []⟩, []) :=
  ⟨Or.inl (by decide),
    c10_invalid_year_no_effects "torvalds" 2007 1 2025 (fun _ => "")
      (.error (.apiError "unused")) ⟨[], []⟩ (Or.inl (by decide))⟩

theorem cum_foldl_closed : ∀ (rs : List Report) (acc : CumAcc),
    rs.foldl cumStep acc =
      { username := acc.username
        total_years := acc.total_years + rs.length
        total_commits := acc.total_commits + (rs.map Report.total_commits).sum
        total_prs := acc.total_prs + (rs.map Report.total_prs).sum
        total_issues := acc.total_issues + (rs.map Report.total_issues).sum
        total_discussions :=
          acc.total_discussions + (rs.map Report.total_discussions).sum
        total_reviews := acc.total_reviews + (rs.map Report.total_reviews).sum
        private_contributions :=
          acc.private_contributions + (rs.map Report.private_contributions).sum
        lines_added := acc.lines_added + (rs.map Report.lines_added).sum
        lines_deleted := acc.lines_deleted + (rs.map Report.lines_deleted).sum
        first_year := (rs.map Report.year).foldl min acc.first_year
        last_year := (rs.map Report.year).foldl max acc.last_year
        last_updated := (rs.map Report.created_at).foldl max acc.last_updated } := by
  intro rs
  induction rs with
  | nil => intro acc; simp
  | cons r rs ih =>
    intro acc
    rw [List.foldl_cons, ih (cumStep acc r)]
    simp only [cumStep, List.map_cons, List.sum_cons, List.length_cons,
      List.foldl_cons]
    congr 1 <;> first | rfl | omega

theorem foldl_min_le_init {α : Type} [LinearOrder α] :
    ∀ (l : List α) (a : α), l.foldl min a ≤ a := by
  intro l
  induction l with
  | nil => intro a; simp
  | cons x xs ih => intro a; exact le_trans (ih (min a x)) (min_le_left a x)

theorem foldl_min_le_mem {α : Type} [LinearOrder α] :
    ∀ (l : List α) (a x : α), x ∈ l → l.foldl min a ≤ x := by
  intro l
  induction l with
  | nil => intro a x hx; cases hx
  | cons y ys ih =>
    intro a x hx
    rcases List.mem_cons.mp hx with h | h
    · subst h
      exact le_trans (foldl_min_le_init ys (min a x)) (min_le_right a x)
    · exact ih (min a y) x h

theorem foldl_min_mem_or {α : Type} [LinearOrder α] :
    ∀ (l : List α) (a : α), l.foldl min a = a ∨ l.foldl min a ∈ l := by
  intro l
  induction l with
  | nil => intro a; exact Or.inl rfl
  | cons x xs ih =>
    intro a
    rw [List.foldl_cons]
    rcases ih (min a x) with h | h
    · rcases le_total a x with hax | hxa
      · left; rw [h, min_eq_left hax]
      · right; rw [h, min_eq_right hxa]; exact List.mem_cons_self _ _
    · exact Or.inr (List.mem_cons_of_mem _ h)

theorem foldl_max_ge_init {α : Type} [LinearOrder α] :
    ∀ (l : List α) (a : α), a ≤ l.foldl max a := by
  intro l
  induction l with
  | nil => intro a; simp
  | cons x xs ih => intro a; exact le_trans (le_max_left a x) (ih (max a x))

theorem foldl_max_ge_mem {α : Type} [LinearOrder α] :
    ∀ (l : List α) (a x : α), x ∈ l → x ≤ l.foldl max a := by
  intro l
  induction l with
  | nil => intro a x hx; cases hx
  | cons y ys ih =>
    intro a x hx
    rcases List.mem_cons.mp hx with h | h
    · subst h
      exact le_trans (le_max_right a x) (foldl_max_ge_init ys (max a x))
    · exact ih (max a y) x h

theorem foldl_max_mem_or {α : Type} [LinearOrder α] :
    ∀ (l : List α) (a : α), l.foldl max a = a ∨ l.foldl max a ∈ l := by
  intro l
  induction l with
  | nil => intro a; exact Or.inl rfl
  | cons x xs ih =>
    intro a
    rw [List.foldl_cons]
    rcases ih (max a x) with h | h
    · rcases le_total x a with hxa | hax
      · left; rw [h, max_eq_left hxa]
      · right; rw [h, max_eq_right hax]; exact List.mem_cons_self _ _
    · exact Or.inr (List.mem_cons_of_mem _ h)

theorem pick_foldl_mem : ∀ (rs : List Report) (b : Report),
    rs.foldl (fun best x => if best.year < x.year then x else best) b ∈ b :: rs := by
  intro rs
  induction rs with
  | nil => intro b; exact List.mem_cons_self _ _
  | cons x xs ih =>
    intro b
    rw [List.foldl_cons]
    rcases List.mem_cons.mp (ih (if b.year < x.year then x else b)) with h | h
    · rw [h]
      by_cases hbx : b.year < x.year
      · simp only [if_pos hbx]
        exact List.mem_cons_of_mem _ (List.mem_cons_self _ _)
      · simp only [if_neg hbx]
        exact List.mem_cons_self _ _
    · exact List.mem_cons_of_mem _ (List.mem_cons_of_mem _ h)

theorem pick_foldl_ge : ∀ (rs : List Report) (b : Report),
    b.year ≤ (rs.foldl (fun best x => if best.year < x.year then x else best) b).year
    ∧ ∀ x ∈ rs,
        x.year ≤ (rs.foldl (fun best x => if best.year < x.year then x else best) b).year := by
  intro rs
  induction rs with
  | nil =>
    intro b
    exact ⟨le_refl _, fun x hx => absurd hx (List.not_mem_nil x)⟩
  | cons y ys ih =>
    intro b
    rw [List.foldl_cons]
    have hih := ih (if b.year < y.year then y else b)
    have hb : b.year ≤ (if b.year < y.year then y else b).year := by
      by_cases hby : b.year < y.year
      · rw [if_pos hby]; exact le_of_lt hby
      · rw [if_neg hby]
    have hy : y.year ≤ (if b.year < y.year then y else b).year := by
      by_cases hby : b.year < y.year
      · rw [if_pos hby]
      · rw [if_neg hby]; exact le_of_not_lt hby
    refine ⟨le_trans hb hih.1, fun x hx => ?_⟩
    rcases List.mem_cons.mp hx with h | h
    · subst h; exact le_trans hy hih.1
    · exact hih.2 x h

theorem year_nodup_inj : ∀ (rows : List Report),
    (rows.map Report.year).Nodup →
    ∀ a ∈ rows, ∀ b ∈ rows, a.year = b.year → a = b := by
  intro rows
  induction rows with
  | nil => intro _ a ha; cases ha
  | cons r rows ih =>
    intro hnd a ha b hb heq
    rw [List.map_cons, List.nodup_cons] at hnd
    rcases List.mem_cons.mp ha with ha' | ha' <;> rcases List.mem_cons.mp hb with hb' | hb'
    · rw [ha', hb']
    · exfalso
      apply hnd.1
      have : b.year ∈ rows.map Report.year := List.mem_map_of_mem Report.year hb'
      rw [ha'] at heq
      rw [heq]
      exact this
    · exfalso
      apply hnd.1
      have : a.year ∈ rows.map Report.year := List.mem_map_of_mem Report.year ha'
      rw [hb'] at heq
      rw [← heq]
      exact this
    · exact ih hnd.2 a ha' b hb' heq

theorem lookup_map_keys (f : String → Nat) : ∀ (keys : List String) (k : String),
    (keys.map (fun x => (x, f x))).lookup k
      = if k ∈ keys then some (f k) else none := by
  intro keys
  induction keys with
  | nil => intro k; simp
  | cons x xs ih =>
    intro k
    by_cases hkx : k = x
    · subst hkx
      simp [List.lookup]
    · have hbeq : (k == x) = false := by simp [hkx]
      simp [List.lookup, hbeq, ih, List.mem_cons, hkx]

theorem lookup_some_mem_keys : ∀ (l : List (String × Nat)) (k : String) (v : Nat),
    l.lookup k = some v → k ∈ l.map Prod.fst := by
  intro l
  induction l with
  | nil => intro k v h; cases h
  | cons p ps ih =>
    intro k v h
    obtain ⟨k1, v1⟩ := p
    rw [List.map_cons]
    by_cases hk : k = k1
    · rw [hk]; exact List.mem_cons_self _ _
    · have hbeq : (k == k1) = false := by simp [hk]
      refine List.mem_cons_of_mem _ (ih k v ?_)
      simpa [List.lookup, hbeq] using h

theorem not_mem_all_lang_keys (rows : List Report) (k : String)
    (hk : k ∉ all_lang_keys rows) : ∀ r ∈ rows, lkpD r.languages k = 0 := by
  intro r hr
  unfold lkpD
  cases hcase : r.languages.lookup k with
  | none => simp
  | some v =>
    exfalso
    apply hk
    unfold all_lang_keys
    rw [List.mem_dedup, List.mem_map]
    rcases List.mem_map.mp (lookup_some_mem_keys _ k v hcase) with ⟨p, hp, hpk⟩
    exact ⟨p, List.mem_flatten.mpr
      ⟨r.languages, List.mem_map_of_mem Report.languages hr, hp⟩, hpk⟩

theorem merge_languages_lkpD (rows : List Report) (k : String) :
    lkpD (merge_languages rows) k
      = (rows.map (fun r => lkpD r.languages k)).sum := by
  have hlk := lookup_map_keys
    (fun x => (rows.map (fun r => lkpD r.languages x)).sum) (all_lang_keys rows) k
  show ((merge_languages rows).lookup k).getD 0 = _
  rw [show (merge_languages rows).lookup k
      = ((all_lang_keys rows).map
          (fun x => (x, (rows.map (fun r => lkpD r.languages x)).sum))).lookup k
    from rfl]
  rw [hlk]
  by_cases hk : k ∈ all_lang_keys rows
  · simp [hk]
  · rw [if_neg hk, Option.getD_none]
    symm
    refine List.sum_eq_zero ?_
    intro x hx
    rcases List.mem_map.mp hx with ⟨r, hr, hxr⟩
    rw [← hxr]
    exact not_mem_all_lang_keys rows k hk r hr

/-- C3: for every non-empty collection of per-year snapshots (with the
distinct years the schema's `UNIQUE(username, year)` constraint guarantees),
`aggregated` returns the all-time statistic described by `C3Spec`. -/
theorem c3_alltime_aggregation (rows : List Report) (hne : rows ≠ [])
    (hnd : (rows.map Report.year).Nodup) : C3Spec rows := by
  cases rows with
  | nil => exact absurd rfl hne
  | cons r rs =>
    have hcum := cum_foldl_closed rs (cumInit r)
    refine ⟨_, rfl, ?_, ?_, ?_, ?_, ?_, ?_, ?_, ?_, ?_, ?_, ?_, ?_, ?_, ?_, ?_, ?_, ?_⟩
    · show (rs.foldl cumStep (cumInit r)).total_years = (r :: rs).length
      rw [hcum]
      simp only [cumInit, List.length_cons]
      omega
    · show (rs.foldl cumStep (cumInit r)).total_commits
        = ((r :: rs).map Report.total_commits).sum
      rw [hcum]; simp [cumInit]
    · show (rs.foldl cumStep (cumInit r)).total_prs
        = ((r :: rs).map Report.total_prs).sum
      rw [hcum]; simp [cumInit]
    · show (rs.foldl cumStep (cumInit r)).total_issues
        = ((r :: rs).map Report.total_issues).sum
      rw [hcum]; simp [cumInit]
    · show (rs.foldl cumStep (cumInit r)).total_discussions
        = ((r :: rs).map Report.total_discussions).sum
      rw [hcum]; simp [cumInit]
    · show (rs.foldl cumStep (cumInit r)).total_reviews
        = ((r :: rs).map Report.total_reviews).sum
      rw [hcum]; simp [cumInit]
    · show (rs.foldl cumStep (cumInit r)).private_contributions
        = ((r :: rs).map Report.private_contributions).sum
      rw [hcum]; simp [cumInit]
    · show (rs.foldl cumStep (cumInit r)).lines_added
        = ((r :: rs).map Report.lines_added).sum
      rw [hcum]; simp [cumInit]
    · show (rs.foldl cumStep (cumInit r)).lines_deleted
        = ((r :: rs).map Report.lines_deleted).sum
      rw [hcum]; simp [cumInit]
    · show (rs.foldl cumStep (cumInit r)).first_year ∈ (r :: rs).map Report.year
      rw [hcum]
      show (rs.map Report.year).foldl min (cumInit r).first_year ∈ _
      rcases foldl_min_mem_or (rs.map Report.year) (cumInit r).first_year with h | h
      · rw [h]; exact List.mem_cons_self _ _
      · exact List.mem_cons_of_mem _ h
    · intro s hs
      show (rs.foldl cumStep (cumInit r)).first_year ≤ s.year
      rw [hcum]
      rcases List.mem_cons.mp hs with h | h
      · subst h; exact foldl_min_le_init _ _
      · exact foldl_min_le_mem _ _ _ (List.mem_map_of_mem Report.year h)
    · show (rs.foldl cumStep (cumInit r)).last_year ∈ (r :: rs).map Report.year
      rw [hcum]
      rcases foldl_max_mem_or (rs.map Report.year) (cumInit r).last_year with h | h
      · show (rs.map Report.year).foldl max (cumInit r).last_year ∈ _
        rw [h]; exact List.mem_cons_self _ _
      · exact List.mem_cons_of_mem _ h
    · intro s hs
      show s.year ≤ (rs.foldl cumStep (cumInit r)).last_year
      rw [hcum]
      rcases List.mem_cons.mp hs with h | h
      · subst h; exact foldl_max_ge_init _ _
      · exact foldl_max_ge_mem _ _ _ (List.mem_map_of_mem Report.year h)
    · show (rs.foldl cumStep (cumInit r)).last_updated ∈ (r :: rs).map Report.created_at
      rw [hcum]
      rcases foldl_max_mem_or (rs.map Report.created_at) (cumInit r).last_updated with h | h
      · show (rs.map Report.created_at).foldl max (cumInit r).last_updated ∈ _
        rw [h]; exact List.mem_cons_self _ _
      · exact List.mem_cons_of_mem _ h
    · intro s hs
      show s.created_at ≤ (rs.foldl cumStep (cumInit r)).last_updated
      rw [hcum]
      rcases List.mem_cons.mp hs with h | h
      · subst h; exact foldl_max_ge_init _ _
      · exact foldl_max_ge_mem _ _ _ (List.mem_map_of_mem Report.created_at h)
    · intro t ht hmax
      have hsnapmem := pick_foldl_mem rs r
      have hge := pick_foldl_ge rs r
      have hle1 : (rs.foldl (fun best x => if best.year < x.year then x else best) r).year
          ≤ t.year := hmax _ hsnapmem
      have hle2 : t.year
          ≤ (rs.foldl (fun best x => if best.year < x.year then x else best) r).year := by
        rcases List.mem_cons.mp ht with h | h
        · subst h; exact hge.1
        · exact hge.2 t h
      have hyear : (rs.foldl (fun best x => if best.year < x.year then x else best) r).year
          = t.year := le_antisymm hle1 hle2
      have hsnap : rs.foldl (fun best x => if best.year < x.year then x else best) r = t :=
        year_nodup_inj (r :: rs) hnd _ hsnapmem t ht hyear
      exact ⟨congrArg Report.repositories_contributed hsnap,
        congrArg Report.starred_repos hsnap,
        congrArg Report.followers hsnap,
        congrArg Report.following hsnap,
        congrArg Report.public_repos hsnap⟩
    · intro k
      exact merge_languages_lkpD (r :: rs) k

/-- Witness for C3 at the claimed example: totalCommits 450, firstYear 2022,
lastYear 2024, repositoriesContributed 10 (the 2024 value), and the merged
language histogram Python 150 / Go 30. -/
theorem c3_alltime_aggregation_witness :
    c3rows ≠ []
    ∧ (c3rows.map Report.year).Nodup
    ∧ C3Spec c3rows
    ∧ (aggregated c3rows).map AllTimeStats.total_commits = some 450
    ∧ (aggregated c3rows).map AllTimeStats.first_year = some 2022
    ∧ (aggregated c3rows).map AllTimeStats.last_year = some 2024
    ∧ (aggregated c3rows).map AllTimeStats.repositories_contributed = some 10
    ∧ (aggregated c3rows).map (fun a => lkpD a.languages "Python") = some 150
    ∧ (aggregated c3rows).map (fun a => lkpD a.languages "Go") = some 30 :=
  ⟨by decide, by decide, c3_alltime_aggregation c3rows (by decide) (by decide),
    by decide, by decide, by decide, by decide, by decide, by decide⟩

end GhSummaryBot
